import Mathlib

/-
Shallow embedding of the recommendation-engine utilities of the
mental-health-support service:

* `FeedbackManager.record`       (ml_service/recommendation_engine/utils/feedback.py)
* `evaluate_holdout_at_k` and the ranking metrics
                                 (ml_service/recommendation_engine/utils/evaluation.py)
* `load_reco_datasets`           (ml_service/recommendation_engine/utils/preprocessing.py)
* the `/api/reco/feedback` and `/api/reco/metrics` Flask handlers
                                 (ml_service/app/recommendations.py)

Pandas data frames are modelled by the structure `DF` below: a row index of
user ids, a column list of item ids, and a total valuation of cells.  Python
floats are modelled by `ℚ`.  In-place mutation is modelled by explicit state
passing; a raised exception is an `Except.error` value that still carries the
state of the frame at the moment the exception escapes.
-/

namespace Reco

/-- A pandas-style interactions frame: row labels (`index`, user ids), column
labels (`columns`, item ids) and the cell values.  `val` is total; only cells
whose labels are in `index` and `columns` are observable by the Python code. -/
structure DF where
  index : List String
  columns : List String
  val : String → String → ℚ

/-- `df.at[u, i]` — read one cell. -/
def DF.entry (df : DF) (u i : String) : ℚ := df.val u i

/-- `df.at[u, i] = v` — write one cell in place (modelled functionally). -/
def DF.set (df : DF) (u i : String) (v : ℚ) : DF :=
  { df with val := fun u' i' => if u' = u ∧ i' = i then v else df.val u' i' }

/-- `if user_id not in interactions_df.index: interactions_df.loc[user_id] = 0.0`
— appends an all-zero row for a user not yet in the index. -/
def DF.ensureRow (df : DF) (u : String) : DF :=
  if u ∈ df.index then df
  else { index := df.index ++ [u], columns := df.columns,
         val := fun u' i' => if u' = u then 0 else df.val u' i' }

/-- `if item_id not in interactions_df.columns: interactions_df[item_id] = 0.0`
— appends an all-zero column for an item not yet present. -/
def DF.ensureCol (df : DF) (i : String) : DF :=
  if i ∈ df.columns then df
  else { index := df.index, columns := df.columns ++ [i],
         val := fun u' i' => if i' = i then 0 else df.val u' i' }

/-- The weight table of `FeedbackManager.record`:
`{"like": 1.0, "dislike": -1.0, "skip": 0.1}.get(action, 0.1)`. -/
def defaultWeight (action : String) : ℚ :=
  if action = "like" then 1
  else if action = "dislike" then -1
  else if action = "skip" then 1/10
  else 1/10

/-- The clipping of the updated value in `FeedbackManager.record`:
`if new_val > 5.0: new_val = 5.0` then `if new_val < -5.0: new_val = -5.0`. -/
def clamp5 (x : ℚ) : ℚ :=
  if x > 5 then 5 else if x < -5 then -5 else x

/-- One line of the JSONL audit log written by `FeedbackManager.record`. -/
structure LogEntry where
  user_id : String
  item_id : String
  action : String
  delta : ℚ
deriving DecidableEq

namespace FeedbackManager

/-- `FeedbackManager.record(interactions_df, user_id, item_id, action, weight)`.

The in-memory matrix mutation (row/column creation, incremental update,
clipping to `[-5, 5]`) happens first; only then is the event appended to the
JSONL log.  The file append can fail at the OS level, which the embedding
exposes through the `appendOk` flag: the returned frame is computed before the
append is attempted, and the second component is `Except.error ()` when the
append raised.  `weight = none` is Python's `weight=None` default. -/
def record (df : DF) (log : List LogEntry) (user_id item_id : String)
    (action : String) (weight : Option ℚ) (appendOk : Bool) :
    DF × Except Unit (List LogEntry) :=
  let w := match weight with
    | some x => x
    | none => defaultWeight action
  let df1 := (df.ensureRow user_id).ensureCol item_id
  let new_val := clamp5 (df1.entry user_id item_id + w)
  let df2 := df1.set user_id item_id new_val
  if appendOk then
    (df2, .ok (log ++ [{ user_id := user_id, item_id := item_id,
                         action := action, delta := w }]))
  else
    (df2, .error ())

end FeedbackManager

/-- `n` successive `record(df, u, i, "dislike")` calls with the default weight
(the audit log passed along is irrelevant to the matrix and kept empty). -/
def dislikeN (df : DF) (u i : String) : ℕ → DF
  | 0 => df
  | n+1 => (FeedbackManager.record (dislikeN df u i n) [] u i "dislike" none true).1

/-! ### evaluation.py -/

/-- `precision_recall_at_k(actual, predicted, k)`.  `actual_set = set(actual)`
is modelled by `actual.dedup`; the result triple is
(precision, recall, f1). -/
def precision_recall_at_k (actual predicted : List String) (k : ℕ) :
    ℚ × ℚ × ℚ :=
  let kk := max 1 k
  let pred_k := predicted.take kk
  let actualSet := actual.dedup
  if actualSet.length = 0 then (0, 0, 0)
  else
    let hits : ℕ := (actualSet.filter (fun a => a ∈ pred_k)).length
    let prec : ℚ := (hits : ℚ) / (kk : ℚ)
    let reca : ℚ := (hits : ℚ) / (actualSet.length : ℚ)
    let f1 : ℚ := if 0 < prec + reca then 2 * prec * reca / (prec + reca) else 0
    (prec, reca, f1)

/-- The accumulation loop of `average_precision_at_k`:
`for i, p in enumerate(pred_k, start=1): if p in actual_set: hits += 1; score += hits / i`.
`i` is the 1-based position of the head of the remaining list, `hits` the count
of matches seen so far. -/
def apScore (actual : List String) : List String → ℕ → ℕ → ℚ
  | [], _, _ => 0
  | p :: rest, i, hits =>
    if p ∈ actual then
      ((hits + 1 : ℕ) : ℚ) / (i : ℚ) + apScore actual rest (i + 1) (hits + 1)
    else
      apScore actual rest (i + 1) hits

/-- `average_precision_at_k(actual, predicted, k)`. -/
def average_precision_at_k (actual predicted : List String) (k : ℕ) : ℚ :=
  let kk := max 1 k
  let pred_k := predicted.take kk
  let score := apScore actual.dedup pred_k 1 0
  let denom := min kk actual.dedup.length
  if 0 < denom then score / (denom : ℚ) else 0

/-- `round(x, 6)` with Python's round-half-to-even tie rule, idealized over ℚ. -/
def roundHalfEven (y : ℚ) : ℤ :=
  let f := ⌊y⌋
  let frac := y - (f : ℚ)
  if frac < 1/2 then f
  else if 1/2 < frac then f + 1
  else if f % 2 = 0 then f else f + 1

/-- `round(avg, 6)` on the final averaged metrics. -/
def round6 (x : ℚ) : ℚ := ((roundHalfEven (x * 1000000) : ℤ) : ℚ) / 1000000

/-- `float(np.mean(x)) if x else 0.0`. -/
def avg (xs : List ℚ) : ℚ :=
  if xs = [] then 0 else xs.sum / (xs.length : ℚ)

/-- The metrics dict returned by `evaluate_holdout_at_k`. -/
structure EvalMetrics where
  precisionAtK : ℚ
  recallAtK : ℚ
  f1AtK : ℚ
  mapAtK : ℚ
deriving DecidableEq

/-- The per-user loop of `evaluate_holdout_at_k`.  The recommender is a
read-only function of the (masked) frame; `Except.error` is a raised
exception inside `recommender.recommend`.  The `try/finally` of the source
restores the held-out cell on both paths; on the error path the exception
then propagates, carrying the restored frame as the final state. -/
def evaluateLoop (recommend : DF → String → ℕ → Except Unit (List String))
    (k : ℕ) : List String → DF → List ℚ → List ℚ → List ℚ → List ℚ →
    DF × Except Unit EvalMetrics
  | [], df, ps, rs, fs, ms =>
    (df, .ok { precisionAtK := round6 (avg ps), recallAtK := round6 (avg rs),
               f1AtK := round6 (avg fs), mapAtK := round6 (avg ms) })
  | u :: rest, df, ps, rs, fs, ms =>
    let pos_items := df.columns.filter (fun i => 0 < df.entry u i)
    match pos_items with
    | [] => evaluateLoop recommend k rest df ps rs fs ms
    | test_item :: _ =>
      let original := df.entry u test_item
      let masked := df.set u test_item 0
      match recommend masked u k with
      | .error e => (masked.set u test_item original, .error e)
      | .ok pred =>
        let m := precision_recall_at_k [test_item] pred k
        let ap := average_precision_at_k [test_item] pred k
        evaluateLoop recommend k rest (masked.set u test_item original)
          (ps ++ [m.1]) (rs ++ [m.2.1]) (fs ++ [m.2.2]) (ms ++ [ap])

/-- `evaluate_holdout_at_k(recommender, interactions_df, k)`: iterate the
users of the frame in index order, hold out each user's first positive item,
recommend, accumulate the metrics, restore the cell.  The first component is
the frame state when the call returns or the exception escapes. -/
def evaluate_holdout_at_k (recommend : DF → String → ℕ → Except Unit (List String))
    (df : DF) (k : ℕ) : DF × Except Unit EvalMetrics :=
  evaluateLoop recommend k df.index df [] [] [] []

/-! ### preprocessing.py -/

/-- `interactions.reindex(columns=cols, fill_value=0)` — pandas semantics:
the result's columns are exactly `cols` in that order; a requested column
present in the original keeps its values, a requested column absent from the
original is filled with 0.  Columns of the original outside `cols` are
dropped (they are no longer in `columns`, hence no longer observable). -/
def DF.reindexColumns (df : DF) (cols : List String) : DF :=
  { index := df.index, columns := cols,
    val := fun u i => if i ∈ df.columns then df.val u i else 0 }

/-- `load_reco_datasets(base_dir)`, restricted to the part the claim is
about: the interactions frame is reindexed to the catalog's `item_id`
column when it exists, and a `ValueError` is raised otherwise.  `itemIds`
is `items["item_id"].tolist()` when the `item_id` column exists, `none`
otherwise. -/
def load_reco_datasets (itemIds : Option (List String)) (interactions : DF) :
    Except String (List String × DF) :=
  match itemIds with
  | some ids => .ok (ids, interactions.reindexColumns ids)
  | none => .error "items.csv must include item_id column"

/-! ### app/recommendations.py: the feedback and metrics handlers -/

/-- The JSON body of a `POST /api/reco/feedback` request.  A missing
`user_id`/`item_id` (Python `None`, falsy) is modelled together with the
falsy empty string as `getD ""`; `rating` defaults to 0 via
`float(data.get('rating', 0))`. -/
structure FeedbackRequest where
  user_id : Option String
  item_id : Option String
  rating : Option ℚ

/-- The `feedback` Flask handler.  `engFeedback` is the engine's
`eng.feedback(user_id, item_id, rating)` (its module is outside the embedded
sources, so it stays abstract over the engine state `σ`).  The result is the
engine state after the call and the HTTP status code: 400 on validation
failure, 200 on success. -/
def feedback_endpoint {σ : Type} (engFeedback : σ → String → String → ℚ → σ)
    (st : σ) (req : FeedbackRequest) : σ × ℕ :=
  let u := req.user_id.getD ""
  let i := req.item_id.getD ""
  let rating := req.rating.getD 0
  if u = "" ∨ i = "" then (st, 400)
  else if rating ≤ 0 then (st, 400)
  else (engFeedback st u i rating, 200)

/-- The module-level cache of the `metrics` handler:
`_LAST_EVAL` (timestamp) and `_LAST_EVAL_RESULT`. -/
structure MetricsCache (α : Type) where
  lastEval : Option ℚ
  lastResult : Option α

/-- The `metrics` Flask handler.  `evalFn k strategy` is
`evaluate_at_k(eng, k=k, strategy=strategy)` (abstract: its module is outside
the embedded sources); `now` is `time.time()`.  The evaluation is recomputed
exactly when `_LAST_EVAL_RESULT is None or _LAST_EVAL is None or
(now - _LAST_EVAL) > 60`; otherwise the cached result is returned unchanged.
The response triple is `(k, strategy, data)` as in the JSON body. -/
def metrics_endpoint {α : Type} (evalFn : ℕ → String → α) (now : ℚ) (k : ℕ)
    (strategy : String) (st : MetricsCache α) :
    MetricsCache α × (ℕ × String × α) :=
  match st.lastResult, st.lastEval with
  | some r, some t =>
    if now - t > 60 then
      let r2 := evalFn k strategy
      ({ lastEval := some now, lastResult := some r2 }, (k, strategy, r2))
    else
      (st, (k, strategy, r))
  | _, _ =>
    let r2 := evalFn k strategy
    ({ lastEval := some now, lastResult := some r2 }, (k, strategy, r2))

/-! ### Concrete frames used to instantiate hypotheses -/

/-- A one-user, one-item frame with value 0 everywhere. -/
def df0 : DF := ⟨["u"], ["a"], fun _ _ => 0⟩

/-- Two users, two items: `(u1, a) = 1` and `(u2, b) = 1`, the rest 0. -/
def df1 : DF :=
  ⟨["u1", "u2"], ["a", "b"],
   fun u i => if u = "u1" ∧ i = "a" then 1 else if u = "u2" ∧ i = "b" then 1 else 0⟩

/-- One user, columns `b, c`, all cells 2 — item `a` is missing, item `c` is
outside the catalog used in the C7 instantiation. -/
def dfC7 : DF := ⟨["u"], ["b", "c"], fun _ _ => 2⟩

/-! ### Helper lemmas -/

@[simp] theorem DF.entry_set (df : DF) (u i u' i' : String) (v : ℚ) :
    (df.set u i v).entry u' i' = if u' = u ∧ i' = i then v else df.entry u' i' := rfl

@[simp] theorem DF.index_set (df : DF) (u i : String) (v : ℚ) :
    (df.set u i v).index = df.index := rfl

@[simp] theorem DF.columns_set (df : DF) (u i : String) (v : ℚ) :
    (df.set u i v).columns = df.columns := rfl

theorem DF.entry_set_set_cancel (df : DF) (u i : String) (u' i' : String) :
    ((df.set u i 0).set u i (df.entry u i)).entry u' i' = df.entry u' i' := by
  by_cases h : u' = u ∧ i' = i
  · obtain ⟨rfl, rfl⟩ := h
    simp
  · simp [DF.entry_set, h]

theorem clamp5_le (x : ℚ) : clamp5 x ≤ 5 := by
  unfold clamp5
  split
  · exact le_refl 5
  · split
    · norm_num
    · linarith [not_lt.mp (by assumption : ¬ x > 5)]

theorem clamp5_ge (x : ℚ) : -5 ≤ clamp5 x := by
  unfold clamp5
  split
  · norm_num
  · split
    · exact le_refl (-5)
    · linarith [not_lt.mp (by assumption : ¬ x < -5)]

theorem clamp5_of_ge_neg5 (x : ℚ) (h : -5 ≤ x) : clamp5 x = min x 5 := by
  unfold clamp5
  split
  · rw [min_eq_right]
    linarith
  · rw [if_neg (by linarith), min_eq_left]
    linarith [not_lt.mp (by assumption : ¬ x > 5)]

theorem record_fst (df : DF) (log : List LogEntry) (u i a : String)
    (w : Option ℚ) (ok : Bool) :
    (FeedbackManager.record df log u i a w ok).1 =
      ((df.ensureRow u).ensureCol i).set u i
        (clamp5 (((df.ensureRow u).ensureCol i).entry u i +
          (match w with | some x => x | none => defaultWeight a))) := by
  unfold FeedbackManager.record
  cases ok <;> rfl

theorem record_entry_self (df : DF) (log : List LogEntry) (u i a : String)
    (w : Option ℚ) (ok : Bool) :
    (FeedbackManager.record df log u i a w ok).1.entry u i =
      clamp5 (((df.ensureRow u).ensureCol i).entry u i +
        (match w with | some x => x | none => defaultWeight a)) := by
  rw [record_fst]
  simp

theorem ensure_entry_of_mem (df : DF) (u i : String)
    (hu : u ∈ df.index) (hi : i ∈ df.columns) :
    ((df.ensureRow u).ensureCol i).entry u i = df.entry u i := by
  unfold DF.ensureRow DF.ensureCol
  rw [if_pos hu, if_pos hi]

theorem evaluateLoop_fst_entry (recommend : DF → String → ℕ → Except Unit (List String))
    (k : ℕ) (users : List String) (df : DF) (ps rs fs ms : List ℚ) (u' i' : String) :
    (evaluateLoop recommend k users df ps rs fs ms).1.entry u' i' = df.entry u' i' := by
  induction users generalizing df ps rs fs ms with
  | nil => rfl
  | cons u rest ih =>
    rw [evaluateLoop]
    cases hpos : df.columns.filter (fun i => decide (0 < df.entry u i)) with
    | nil =>
      simp only [hpos]
      exact ih df ps rs fs ms
    | cons t xs =>
      simp only [hpos]
      cases hrec : recommend (df.set u t 0) u k with
      | error e =>
        simp only [hrec]
        exact DF.entry_set_set_cancel df u t u' i'
      | ok pred =>
        simp only [hrec]
        rw [ih]
        exact DF.entry_set_set_cancel df u t u' i'

theorem evaluateLoop_fst_index (recommend : DF → String → ℕ → Except Unit (List String))
    (k : ℕ) (users : List String) (df : DF) (ps rs fs ms : List ℚ) :
    (evaluateLoop recommend k users df ps rs fs ms).1.index = df.index ∧
    (evaluateLoop recommend k users df ps rs fs ms).1.columns = df.columns := by
  induction users generalizing df ps rs fs ms with
  | nil => exact ⟨rfl, rfl⟩
  | cons u rest ih =>
    rw [evaluateLoop]
    cases hpos : df.columns.filter (fun i => decide (0 < df.entry u i)) with
    | nil =>
      simp only [hpos]
      exact ih df ps rs fs ms
    | cons t xs =>
      simp only [hpos]
      cases hrec : recommend (df.set u t 0) u k with
      | error e => simp only [hrec]; exact ⟨rfl, rfl⟩
      | ok pred =>
        simp only [hrec]
        rw [(ih _ _ _ _ _).1, (ih _ _ _ _ _).2]
        exact ⟨rfl, rfl⟩

theorem evaluateLoop_error_of_pos (k : ℕ) (users : List String) (df : DF)
    (ps rs fs ms : List ℚ)
    (h : ∃ u ∈ users, ∃ i ∈ df.columns, 0 < df.entry u i) :
    (evaluateLoop (fun _ _ _ => .error ()) k users df ps rs fs ms).2 = .error () := by
  induction users generalizing df ps rs fs ms with
  | nil => obtain ⟨u, hu, _⟩ := h; exact absurd hu (List.not_mem_nil u)
  | cons u rest ih =>
    rw [evaluateLoop]
    cases hpos : df.columns.filter (fun i => decide (0 < df.entry u i)) with
    | nil =>
      simp only [hpos]
      apply ih
      obtain ⟨u0, hu0, i0, hi0, hpos0⟩ := h
      rcases List.mem_cons.mp hu0 with rfl | hmem
      · exfalso
        have hi : i0 ∈ df.columns.filter (fun i => decide (0 < df.entry u0 i)) :=
          List.mem_filter.mpr ⟨hi0, by simpa using hpos0⟩
        rw [hpos] at hi
        exact List.not_mem_nil _ hi
      · exact ⟨u0, hmem, i0, hi0, hpos0⟩
    | cons t xs =>
      simp only [hpos]

theorem apScore_of_not_mem (t : String) (l : List String) (hn : t ∉ l)
    (i hits : ℕ) : apScore [t] l i hits = 0 := by
  induction l generalizing i hits with
  | nil => rfl
  | cons p rest ih =>
    rw [apScore]
    rw [if_neg]
    · exact ih (fun h => hn (List.mem_cons_of_mem p h)) _ _
    · intro hmem
      rw [List.mem_singleton] at hmem
      exact hn (hmem ▸ List.mem_cons_self p rest)

theorem apScore_count_le_one (t : String) (l : List String)
    (hc : l.count t ≤ 1) (hm : t ∈ l) (i : ℕ) :
    apScore [t] l i 0 = 1 / ((i + l.indexOf t : ℕ) : ℚ) := by
  induction l generalizing i with
  | nil => exact absurd hm (List.not_mem_nil t)
  | cons p rest ih =>
    by_cases hp : p = t
    · subst hp
      rw [apScore, if_pos (List.mem_singleton_self p)]
      have hrest : p ∉ rest := by
        apply List.count_eq_zero.mp
        have := List.count_cons_self p rest
        omega
      rw [apScore_of_not_mem _ _ hrest]
      rw [List.indexOf_cons_self]
      norm_num
    · rw [apScore, if_neg]
      · have hm' : t ∈ rest := by
          rcases List.mem_cons.mp hm with rfl | h
          · exact absurd rfl hp
          · exact h
        have hc' : rest.count t ≤ 1 := by
          have := List.count_cons t p rest
          omega
        rw [ih hc' hm' (i + 1)]
        rw [List.indexOf_cons_ne _ hp]
        congr 2
        omega
      · intro hmem
        rw [List.mem_singleton] at hmem
        exact hp hmem

/-! ### The claims -/

/-- C1: a `record` call on a cell currently in `[-5, 5]` leaves the cell in
`[-5, 5]` (for any action and any explicit weight); a default-weight `like`
turns the value `v` into `min (v + 1) 5`, which strictly increases it as long
as `v < 5`; and any sequence of repeated default-weight `dislike` calls never
pushes the value below `-5`. -/
theorem C1_record_value_clamped (df : DF) (log : List LogEntry)
    (u i action : String) (w : Option ℚ) (ok : Bool)
    (h : (-5 ≤ df.entry u i ∧ df.entry u i ≤ 5) ∧ u ∈ df.index ∧ i ∈ df.columns) :
    (-5 ≤ (FeedbackManager.record df log u i action w ok).1.entry u i ∧
      (FeedbackManager.record df log u i action w ok).1.entry u i ≤ 5)
    ∧ (FeedbackManager.record df log u i "like" none ok).1.entry u i
        = min (df.entry u i + 1) 5
    ∧ (df.entry u i < 5 →
        df.entry u i < (FeedbackManager.record df log u i "like" none ok).1.entry u i)
    ∧ (∀ n : ℕ, -5 ≤ (dislikeN df u i n).entry u i) := by
  obtain ⟨⟨h1, h2⟩, hu, hi⟩ := h
  have hlike : (FeedbackManager.record df log u i "like" none ok).1.entry u i
      = min (df.entry u i + 1) 5 := by
    rw [record_entry_self, ensure_entry_of_mem df u i hu hi]
    have hw : defaultWeight "like" = 1 := by simp [defaultWeight]
    simp only [hw]
    exact clamp5_of_ge_neg5 _ (by linarith)
  refine ⟨⟨?_, ?_⟩, hlike, ?_, ?_⟩
  · rw [record_entry_self]; exact clamp5_ge _
  · rw [record_entry_self]; exact clamp5_le _
  · intro hlt
    rw [hlike]
    exact lt_min (by linarith) hlt
  · intro n
    induction n with
    | zero => exact h1
    | succ m _ => rw [dislikeN, record_entry_self]; exact clamp5_ge _

/-- Witness for C1 at the zero frame `df0`: the hypotheses hold there, a
`like` moves the cell to `min (0 + 1) 5`, and twelve dislikes stay `≥ -5`. -/
theorem C1_record_value_clamped_witness :
    ((-5 ≤ df0.entry "u" "a" ∧ df0.entry "u" "a" ≤ 5)
      ∧ "u" ∈ df0.index ∧ "a" ∈ df0.columns)
    ∧ (FeedbackManager.record df0 [] "u" "a" "like" none true).1.entry "u" "a"
        = min (df0.entry "u" "a" + 1) 5
    ∧ -5 ≤ (dislikeN df0 "u" "a" 12).entry "u" "a" := by
  refine ⟨by decide, ?_, ?_⟩
  · exact (C1_record_value_clamped df0 [] "u" "a" "like" none true (by decide)).2.1
  · exact (C1_record_value_clamped df0 [] "u" "a" "like" none true (by decide)).2.2.2 12

/-- C2: `evaluate_holdout_at_k` leaves the interaction frame numerically
identical — every cell, the row index and the column list are unchanged when
the call finishes, for every recommender, including recommenders that raise
(`Except.error`) on any subset of the users: the `finally` restoration runs
on both paths. -/
theorem C2_evaluate_holdout_restores_matrix
    (recommend : DF → String → ℕ → Except Unit (List String)) (df : DF) (k : ℕ) :
    (∀ u i, (evaluate_holdout_at_k recommend df k).1.entry u i = df.entry u i)
    ∧ (evaluate_holdout_at_k recommend df k).1.index = df.index
    ∧ (evaluate_holdout_at_k recommend df k).1.columns = df.columns := by
  unfold evaluate_holdout_at_k
  exact ⟨fun u i => evaluateLoop_fst_entry recommend k df.index df [] [] [] [] u i,
         (evaluateLoop_fst_index recommend k df.index df [] [] [] []).1,
         (evaluateLoop_fst_index recommend k df.index df [] [] [] []).2⟩

/-- C3 counterexample: on the concrete frame `df1`, a recommender that raises
only for user `u1` (and would succeed for `u2`) makes the whole
`evaluate_holdout_at_k` call end in the exception instead of a metrics
result: there is no `except` clause in the source, only `try/finally`, so
nothing catches the per-user failure. -/
theorem C3_exception_not_caught_cex :
    (evaluate_holdout_at_k
        (fun _ u _ => if u = "u1" then .error () else .ok ["b"]) df1 5).2
      = .error () := rfl

/-- C3 (amended): a per-user exception inside the recommend call is NOT
caught: after the `finally` block restores the held-out cell, the exception
propagates out of `evaluate_holdout_at_k`, so no metrics result is returned
(with an always-raising recommender and at least one user holding a positive
item, the call ends in the exception, with the frame restored). -/
theorem C3_exception_propagates (df : DF) (k : ℕ)
    (h : ∃ u ∈ df.index, ∃ i ∈ df.columns, 0 < df.entry u i) :
    (evaluate_holdout_at_k (fun _ _ _ => .error ()) df k).2 = .error ()
    ∧ ∀ u' i',
        (evaluate_holdout_at_k (fun _ _ _ => .error ()) df k).1.entry u' i'
          = df.entry u' i' := by
  refine ⟨evaluateLoop_error_of_pos k df.index df [] [] [] [] h, ?_⟩
  exact fun u' i' =>
    evaluateLoop_fst_entry (fun _ _ _ => .error ()) k df.index df [] [] [] [] u' i'

/-- Witness for the amended C3 on the concrete frame `df1`. -/
theorem C3_exception_propagates_witness :
    (∃ u ∈ df1.index, ∃ i ∈ df1.columns, 0 < df1.entry u i)
    ∧ (evaluate_holdout_at_k (fun _ _ _ => .error ()) df1 5).2 = .error ()
    ∧ (evaluate_holdout_at_k (fun _ _ _ => .error ()) df1 5).1.entry "u1" "a"
        = df1.entry "u1" "a" := by
  refine ⟨by decide, ?_, ?_⟩
  · exact (C3_exception_propagates df1 5 (by decide)).1
  · exact (C3_exception_propagates df1 5 (by decide)).2 "u1" "a"

/-- C4: the matrix update of `record` is completed independently of the audit
log append.  The resulting frame is the same whether the append succeeds or
fails; when the append fails the cell still holds the clamped updated value
and only the log side reports the error. -/
theorem C4_matrix_update_independent_of_log (df : DF) (log : List LogEntry)
    (u i a : String) (w : Option ℚ) :
    (FeedbackManager.record df log u i a w false).1
      = (FeedbackManager.record df log u i a w true).1
    ∧ (FeedbackManager.record df log u i a w false).1.entry u i
      = clamp5 (((df.ensureRow u).ensureCol i).entry u i
          + (match w with | some x => x | none => defaultWeight a))
    ∧ (FeedbackManager.record df log u i a w false).2 = .error () := by
  refine ⟨?_, record_entry_self df log u i a w false, rfl⟩
  rw [record_fst, record_fst]

/-- C5: a feedback request with a missing (falsy) `user_id` or `item_id`, or
with a non-positive rating, is rejected with HTTP 400 and the engine state is
returned unchanged — `eng.feedback` is never invoked. -/
theorem C5_invalid_feedback_rejected {σ : Type}
    (engFeedback : σ → String → String → ℚ → σ) (st : σ) (req : FeedbackRequest)
    (h : req.user_id.getD "" = "" ∨ req.item_id.getD "" = ""
          ∨ req.rating.getD 0 ≤ 0) :
    (feedback_endpoint engFeedback st req).1 = st
    ∧ (feedback_endpoint engFeedback st req).2 = 400 := by
  unfold feedback_endpoint
  rcases h with h | h | h
  · rw [if_pos (Or.inl h)]; exact ⟨rfl, rfl⟩
  · rw [if_pos (Or.inr h)]; exact ⟨rfl, rfl⟩
  · by_cases hui : req.user_id.getD "" = "" ∨ req.item_id.getD "" = ""
    · rw [if_pos hui]; exact ⟨rfl, rfl⟩
    · rw [if_neg hui, if_pos h]; exact ⟨rfl, rfl⟩

/-- Witness for C5: a request with ids present but rating 0 leaves a
counter-valued engine state unchanged and returns 400. -/
theorem C5_invalid_feedback_rejected_witness :
    ((some "u" : Option String).getD "" = "" ∨ (some "a" : Option String).getD "" = ""
      ∨ (some 0 : Option ℚ).getD 0 ≤ 0)
    ∧ (feedback_endpoint (fun (s : ℕ) _ _ _ => s + 1) 7
        ⟨some "u", some "a", some 0⟩).1 = 7
    ∧ (feedback_endpoint (fun (s : ℕ) _ _ _ => s + 1) 7
        ⟨some "u", some "a", some 0⟩).2 = 400 := by
  refine ⟨by decide, ?_, ?_⟩
  · exact (C5_invalid_feedback_rejected (fun (s : ℕ) _ _ _ => s + 1) 7
      ⟨some "u", some "a", some 0⟩ (by decide)).1
  · exact (C5_invalid_feedback_rejected (fun (s : ℕ) _ _ _ => s + 1) 7
      ⟨some "u", some "a", some 0⟩ (by decide)).2

/-- C6: with no explicit weight, `record` applies exactly `+1` for `like`,
`-1` for `dislike` and `+1/10` for `skip`, both to the cell (through the
clamp) and in the `delta` field of the appended audit-log line. -/
theorem C6_default_deltas (df : DF) (log : List LogEntry) (u i : String) :
    ((FeedbackManager.record df log u i "like" none true).1.entry u i
        = clamp5 (((df.ensureRow u).ensureCol i).entry u i + 1)
      ∧ (FeedbackManager.record df log u i "like" none true).2
        = .ok (log ++ [⟨u, i, "like", 1⟩]))
    ∧ ((FeedbackManager.record df log u i "dislike" none true).1.entry u i
        = clamp5 (((df.ensureRow u).ensureCol i).entry u i + (-1))
      ∧ (FeedbackManager.record df log u i "dislike" none true).2
        = .ok (log ++ [⟨u, i, "dislike", -1⟩]))
    ∧ ((FeedbackManager.record df log u i "skip" none true).1.entry u i
        = clamp5 (((df.ensureRow u).ensureCol i).entry u i + 1/10)
      ∧ (FeedbackManager.record df log u i "skip" none true).2
        = .ok (log ++ [⟨u, i, "skip", 1/10⟩])) := by
  refine ⟨⟨?_, ?_⟩, ⟨?_, ?_⟩, ⟨?_, ?_⟩⟩ <;>
    simp [record_entry_self, FeedbackManager.record, defaultWeight]

/-- C7: after a successful `load_reco_datasets`, the interaction frame's
columns are exactly the catalog's item ids in catalog order, the row index is
unchanged, and each catalog column holds the original values when the column
existed and 0 when it did not (columns outside the catalog are gone from
`columns`). -/
theorem C7_reindex_columns_match_catalog (itemIds : List String)
    (interactions : DF) (ids : List String) (df2 : DF)
    (h : load_reco_datasets (some itemIds) interactions = .ok (ids, df2)) :
    df2.columns = itemIds
    ∧ df2.index = interactions.index
    ∧ ∀ u i, i ∈ itemIds →
        df2.entry u i
          = if i ∈ interactions.columns then interactions.entry u i else 0 := by
  have h2 : ids = itemIds ∧ df2 = interactions.reindexColumns itemIds := by
    unfold load_reco_datasets at h
    injection h with h
    injection h with ha hb
    exact ⟨ha.symm, hb.symm⟩
  obtain ⟨rfl, rfl⟩ := h2
  refine ⟨rfl, rfl, fun u i _ => rfl⟩

/-- Witness for C7: catalog `[a, b]` against a frame with columns `[b, c]`:
column `a` is created and reads 0, column `b` keeps its value, column `c` is
dropped. -/
theorem C7_reindex_columns_match_catalog_witness :
    (load_reco_datasets (some ["a", "b"]) dfC7
        = .ok (["a", "b"], dfC7.reindexColumns ["a", "b"]))
    ∧ (dfC7.reindexColumns ["a", "b"]).columns = ["a", "b"]
    ∧ (dfC7.reindexColumns ["a", "b"]).entry "u" "a"
        = (if "a" ∈ dfC7.columns then dfC7.entry "u" "a" else 0)
    ∧ (dfC7.reindexColumns ["a", "b"]).entry "u" "b"
        = (if "b" ∈ dfC7.columns then dfC7.entry "u" "b" else 0) := by
  refine ⟨rfl, ?_, ?_, ?_⟩
  · exact (C7_reindex_columns_match_catalog ["a", "b"] dfC7 ["a", "b"]
      (dfC7.reindexColumns ["a", "b"]) rfl).1
  · exact (C7_reindex_columns_match_catalog ["a", "b"] dfC7 ["a", "b"]
      (dfC7.reindexColumns ["a", "b"]) rfl).2.2 "u" "a" (by decide)
  · exact (C7_reindex_columns_match_catalog ["a", "b"] dfC7 ["a", "b"]
      (dfC7.reindexColumns ["a", "b"]) rfl).2.2 "u" "b" (by decide)

/-- C8 counterexample: with the single held-out item `a` and the duplicated
top-k list `[a, a]` (k = 2), `average_precision_at_k` returns 2, not
`1 / rank = 1` for the item present at 1-based rank 1 — so the claimed
formula fails on predicted lists that repeat the held-out item. -/
theorem C8_ap_duplicates_cex :
    ("a" ∈ (["a", "a"].take (max 1 2)))
    ∧ average_precision_at_k ["a"] ["a", "a"] 2 = 2
    ∧ ((2 : ℚ) ≠ 1 / (((["a", "a"].take (max 1 2)).indexOf "a" + 1 : ℕ) : ℚ)) := by
  refine ⟨by decide, ?_, by norm_num⟩
  norm_num [average_precision_at_k, apScore, List.dedup]

/-- C8 (amended): for a single held-out item `t`, provided the top-k
predicted list does not repeat `t` (at most one occurrence),
`average_precision_at_k [t] predicted k` equals `1 / rank` with `rank` the
1-based position of `t` in the top-k list when present, and 0 when absent. -/
theorem C8_ap_singleton_rank (t : String) (predicted : List String) (k : ℕ)
    (hc : (predicted.take (max 1 k)).count t ≤ 1) :
    average_precision_at_k [t] predicted k =
      if t ∈ predicted.take (max 1 k)
      then 1 / (((predicted.take (max 1 k)).indexOf t + 1 : ℕ) : ℚ)
      else 0 := by
  have hd : ([t] : List String).dedup = [t] :=
    List.dedup_cons_of_not_mem (List.not_mem_nil t)
  simp only [average_precision_at_k, hd, List.length_singleton]
  rw [Nat.min_eq_right (Nat.le_max_left 1 k)]
  rw [if_pos Nat.one_pos]
  by_cases hm : t ∈ predicted.take (max 1 k)
  · rw [if_pos hm, apScore_count_le_one t _ hc hm 1]
    rw [Nat.add_comm 1 _]
    norm_num
  · rw [if_neg hm, apScore_of_not_mem t _ hm]
    norm_num

/-- Witness for the amended C8: held-out `a` at rank 2 of `[b, a]`, k = 2. -/
theorem C8_ap_singleton_rank_witness :
    ((["b", "a"].take (max 1 2)).count "a" ≤ 1)
    ∧ average_precision_at_k ["a"] ["b", "a"] 2 =
        (if "a" ∈ ["b", "a"].take (max 1 2)
         then 1 / (((["b", "a"].take (max 1 2)).indexOf "a" + 1 : ℕ) : ℚ)
         else 0) := by
  exact ⟨by decide, C8_ap_singleton_rank "a" ["b", "a"] 2 (by decide)⟩

/-- C9: two metrics calls less than 60 seconds apart: the first (from an
empty cache) computes `evalFn k1 s1` and caches it; the second returns the
same cached metrics data even with different `k` and `strategy` — the cache
is keyed only by time. -/
theorem C9_metrics_cache_ignores_params {α : Type} (evalFn : ℕ → String → α)
    (t1 t2 : ℚ) (k1 k2 : ℕ) (s1 s2 : String) (h : t2 - t1 < 60) :
    (metrics_endpoint evalFn t2 k2 s2
        (metrics_endpoint evalFn t1 k1 s1 ⟨none, none⟩).1).2.2.2
      = (metrics_endpoint evalFn t1 k1 s1 ⟨none, none⟩).2.2.2
    ∧ (metrics_endpoint evalFn t1 k1 s1 ⟨none, none⟩).2.2.2 = evalFn k1 s1 := by
  have hfirst : (metrics_endpoint evalFn t1 k1 s1 ⟨none, none⟩).1
      = ⟨some t1, some (evalFn k1 s1)⟩ := rfl
  rw [hfirst]
  unfold metrics_endpoint
  dsimp only
  rw [if_neg (by linarith : ¬ t2 - t1 > 60)]
  exact ⟨rfl, rfl⟩

/-- Witness for C9: calls at times 0 and 30 with different `k` and strategy
return the same metrics data. -/
theorem C9_metrics_cache_ignores_params_witness :
    ((30 : ℚ) - 0 < 60)
    ∧ (metrics_endpoint (fun k _ => k) 30 7 "cf"
        (metrics_endpoint (fun k _ => k) 0 5 "hybrid"
          (⟨none, none⟩ : MetricsCache ℕ)).1).2.2.2
      = (metrics_endpoint (fun k _ => k) 0 5 "hybrid"
          (⟨none, none⟩ : MetricsCache ℕ)).2.2.2 := by
  constructor
  · norm_num
  · exact (C9_metrics_cache_ignores_params (fun k _ => k) 0 30 5 7
      "hybrid" "cf" (by norm_num)).1

/-- C10: an action outside `{like, dislike, skip}` with no explicit weight
does not fail: the dict lookup falls back to the skip delta `+1/10`, the cell
is updated with it, and the unrecognized action string is appended verbatim
to the audit log. -/
theorem C10_unknown_action_skip_delta (df : DF) (log : List LogEntry)
    (u i : String) (a : String)
    (h : a ≠ "like" ∧ a ≠ "dislike" ∧ a ≠ "skip") :
    (FeedbackManager.record df log u i a none true).1.entry u i
      = clamp5 (((df.ensureRow u).ensureCol i).entry u i + 1/10)
    ∧ (FeedbackManager.record df log u i a none true).2
      = .ok (log ++ [⟨u, i, a, 1/10⟩]) := by
  obtain ⟨h1, h2, h3⟩ := h
  have hw : defaultWeight a = 1/10 := by simp [defaultWeight, h1, h2, h3]
  constructor
  · rw [record_entry_self]
    simp [hw]
  · simp [FeedbackManager.record, hw]

/-- Witness for C10 at action `"view"` on the zero frame. -/
theorem C10_unknown_action_skip_delta_witness :
    ("view" ≠ "like" ∧ "view" ≠ "dislike" ∧ "view" ≠ "skip")
    ∧ (FeedbackManager.record df0 [] "u" "a" "view" none true).1.entry "u" "a"
      = clamp5 (((df0.ensureRow "u").ensureCol "a").entry "u" "a" + 1/10)
    ∧ (FeedbackManager.record df0 [] "u" "a" "view" none true).2
      = .ok ([] ++ [⟨"u", "a", "view", 1/10⟩]) := by
  refine ⟨by decide, ?_, ?_⟩
  · exact (C10_unknown_action_skip_delta df0 [] "u" "a" "view" (by decide)).1
  · exact (C10_unknown_action_skip_delta df0 [] "u" "a" "view" (by decide)).2

end Reco
